import Mathlib

/-!
Verification of the reactive simulation state engine of the
finsimco-fullstack-challenge frontend.

The embedding models JavaScript numbers as an inductive type `JSNum`:
finite doubles are idealised as exact rationals (the spec describes the
valuation as "full precision, no rounding"), and the special values
`NaN`, `Infinity` and `-Infinity` are explicit constructors, because the
store's input-parsing fallback chain
(`parseFloat(String(value)) || previous || 0`) distinguishes them by
truthiness.  Float rounding and overflow are not modelled.

Sources embedded:
  * `frontend/src/utils/calculations.ts` — `calculateValuation`,
    `formatCurrency`, `formatTime`, `MAX_VALUATION`;
  * `frontend/src/store/simulationStore.ts` — the zustand store: initial
    state, `updateSimulationField`, `updateFieldStatus`,
    `incrementTimer`, `resetTimer`, the visibility toggles,
    `setUserRole`, `setUserName`, `resetSimulation`, and the persist
    middleware's `partialize`;
  * `frontend/src/components/inputs/InputField.tsx` — the role-gated
    handlers `handleValueChange` and `handleStatusToggle`.
-/

namespace Finsimco

/-- A JavaScript number: an exact rational for finite doubles, plus the
special values `NaN` and the two infinities. -/
inductive JSNum where
  | num (q : ℚ)
  | nan
  | inf
  | negInf
deriving DecidableEq, Repr

/-- JavaScript truthiness of a number: `0`, `-0` and `NaN` are falsy,
every other number (including the infinities) is truthy. -/
def JSNum.truthy : JSNum → Bool
  | .num q => decide (q ≠ 0)
  | .nan => false
  | .inf => true
  | .negInf => true

/-- JavaScript `a || b` on numbers: `a` when `a` is truthy, else `b`. -/
def jsOr (a b : JSNum) : JSNum := if a.truthy then a else b

/-- JavaScript multiplication: `NaN` is absorbing; an infinity times zero
is `NaN`, otherwise infinities follow the sign rules. -/
def jsMul : JSNum → JSNum → JSNum
  | .nan, _ => .nan
  | _, .nan => .nan
  | .num a, .num b => .num (a * b)
  | .num a, .inf => if 0 < a then .inf else if a < 0 then .negInf else .nan
  | .num a, .negInf => if 0 < a then .negInf else if a < 0 then .inf else .nan
  | .inf, .num b => if 0 < b then .inf else if b < 0 then .negInf else .nan
  | .negInf, .num b => if 0 < b then .negInf else if b < 0 then .inf else .nan
  | .inf, .inf => .inf
  | .inf, .negInf => .negInf
  | .negInf, .inf => .negInf
  | .negInf, .negInf => .inf

/-- JavaScript division (signed zeros not modelled: a finite value divided
by zero is sent by the sign of the numerator, `0/0` to `NaN`). -/
def jsDiv : JSNum → JSNum → JSNum
  | .nan, _ => .nan
  | _, .nan => .nan
  | .num a, .num b =>
      if b ≠ 0 then .num (a / b)
      else if 0 < a then .inf else if a < 0 then .negInf else .nan
  | .num _, .inf => .num 0
  | .num _, .negInf => .num 0
  | .inf, .num b => if 0 ≤ b then .inf else .negInf
  | .negInf, .num b => if 0 ≤ b then .negInf else .inf
  | .inf, .inf => .nan
  | .inf, .negInf => .nan
  | .negInf, .inf => .nan
  | .negInf, .negInf => .nan

/-- JavaScript `Math.min` on two numbers: `NaN` if either argument is
`NaN`, otherwise the smaller in the order `-Infinity < finite < Infinity`. -/
def jsMin : JSNum → JSNum → JSNum
  | .nan, _ => .nan
  | _, .nan => .nan
  | .negInf, _ => .negInf
  | _, .negInf => .negInf
  | .inf, b => b
  | a, .inf => a
  | .num a, .num b => .num (min a b)

/-- Decimal digit predicate used by the `parseFloat` model. -/
def isDigitChar (c : Char) : Bool := '0' ≤ c && c ≤ '9'

/-- Splits a character list into its longest prefix of decimal digits and
the remainder. -/
def takeDigits : List Char → List Char × List Char
  | [] => ([], [])
  | c :: cs =>
      if isDigitChar c then
        let p := takeDigits cs
        (c :: p.1, p.2)
      else ([], c :: cs)

/-- Numeric value of a list of decimal digits. -/
def digitsToNat (l : List Char) : Nat :=
  l.foldl (fun acc c => 10 * acc + (c.toNat - 48)) 0

/-- Value of the digits of an exponent part; `0` when there are none (an
exponent marker with no digits is not part of the parsed prefix). -/
def expDigits (l : List Char) : Int :=
  (digitsToNat (takeDigits l).1 : Int)

/-- The optional signed exponent following a mantissa, as `parseFloat`
reads it: `e`/`E`, optional sign, digits; anything else contributes 0. -/
def parseExponent : List Char → Int
  | 'e' :: '+' :: rest => expDigits rest
  | 'e' :: '-' :: rest => - expDigits rest
  | 'e' :: rest => expDigits rest
  | 'E' :: '+' :: rest => expDigits rest
  | 'E' :: '-' :: rest => - expDigits rest
  | 'E' :: rest => expDigits rest
  | _ => 0

/-- Scales a rational by a signed power of ten. -/
def applyExp (q : ℚ) (e : Int) : ℚ :=
  if 0 ≤ e then q * ((Nat.pow 10 e.toNat : Nat) : ℚ)
  else q / ((Nat.pow 10 (- e).toNat : Nat) : ℚ)

/-- The unsigned part of a `parseFloat` literal: the `Infinity` keyword, or
digits with an optional fraction and exponent; `NaN` when no digit is
found. `sgn` is the sign read before it. -/
def parseUnsigned (cs : List Char) (sgn : Int) : JSNum :=
  if cs.take 8 = ['I', 'n', 'f', 'i', 'n', 'i', 't', 'y'] then
    if sgn = 1 then .inf else .negInf
  else
    let ip := takeDigits cs
    let fp := match ip.2 with
      | '.' :: rest => takeDigits rest
      | _ => ([], ip.2)
    if ip.1.isEmpty && fp.1.isEmpty then .nan
    else
      let m : ℚ :=
        ((digitsToNat ip.1 * Nat.pow 10 fp.1.length + digitsToNat fp.1 : Nat) : ℚ) /
          ((Nat.pow 10 fp.1.length : Nat) : ℚ)
      .num ((sgn : ℚ) * applyExp m (parseExponent fp.2))

/-- Whitespace skipped by `parseFloat` before the literal. -/
def isJsWhitespace (c : Char) : Bool :=
  c = ' ' || c = '\t' || c = '\n' || c = '\r'

/-- Model of JavaScript `parseFloat`: skips leading whitespace, reads an
optional sign, then the longest decimal or `Infinity` prefix; `NaN` when
no prefix parses.  Finite results are exact rationals (double rounding
and overflow to `Infinity` of huge literals are not modelled). -/
def jsParseFloat (s : String) : JSNum :=
  match s.toList.dropWhile isJsWhitespace with
  | '+' :: rest => parseUnsigned rest 1
  | '-' :: rest => parseUnsigned rest (-1)
  | rest => parseUnsigned rest 1

/-! ## Data model (`frontend/src/types/simulation.ts`) -/

/-- The six keys of `SimulationData` (`type SimulationField = keyof SimulationData`). -/
inductive SimulationField where
  | ebitda
  | interestRate
  | multiple
  | factorScore
  | companyName
  | description
deriving DecidableEq, Repr

/-- Source `type FieldToggleStatus = 'TBD' | 'OK'`. -/
inductive FieldToggleStatus where
  | TBD
  | OK
deriving DecidableEq, Repr

/-- The `role: 'team1' | 'team2'` union of `UserData`. -/
inductive Role where
  | team1
  | team2
deriving DecidableEq, Repr

/-- Source `interface SimulationData`: four numeric fields and two text fields.
The numeric fields hold `JSNum` because the store's parsing fallback can
write any JavaScript number into them. -/
structure SimulationData where
  ebitda : JSNum
  interestRate : JSNum
  multiple : JSNum
  factorScore : JSNum
  companyName : String
  description : String
deriving DecidableEq, Repr

/-- Source `type FieldStatus`: a total mapping from each `SimulationField` to a
`FieldToggleStatus` (in TypeScript a mapped type, so exactly one entry
per field by construction). -/
structure FieldStatus where
  ebitda : FieldToggleStatus
  interestRate : FieldToggleStatus
  multiple : FieldToggleStatus
  factorScore : FieldToggleStatus
  companyName : FieldToggleStatus
  description : FieldToggleStatus
deriving DecidableEq, Repr

/-- Looks one field's status up. -/
def FieldStatus.get (fs : FieldStatus) : SimulationField → FieldToggleStatus
  | .ebitda => fs.ebitda
  | .interestRate => fs.interestRate
  | .multiple => fs.multiple
  | .factorScore => fs.factorScore
  | .companyName => fs.companyName
  | .description => fs.description

/-- The spread-update `\x7b ...state.fieldStatus, [field]: status \x7d`. -/
def FieldStatus.set (fs : FieldStatus) : SimulationField → FieldToggleStatus → FieldStatus
  | .ebitda, s => { fs with ebitda := s }
  | .interestRate, s => { fs with interestRate := s }
  | .multiple, s => { fs with multiple := s }
  | .factorScore, s => { fs with factorScore := s }
  | .companyName, s => { fs with companyName := s }
  | .description, s => { fs with description := s }

/-- Builds the total mapping from a rule on field names (the
`Object.keys(...).reduce` idiom of the store). -/
def FieldStatus.ofRule (r : SimulationField → FieldToggleStatus) : FieldStatus :=
  { ebitda := r .ebitda, interestRate := r .interestRate, multiple := r .multiple,
    factorScore := r .factorScore, companyName := r .companyName,
    description := r .description }

/-- Source `interface ValuationData`. -/
structure ValuationData where
  amount : JSNum
  percentage : JSNum
  maxValuation : ℚ
deriving DecidableEq, Repr

/-- Source `interface TimerData`; all reachable values are non-negative
integers, so the fields are `Nat`. -/
structure TimerData where
  hours : Nat
  minutes : Nat
  seconds : Nat
  totalSeconds : Nat
deriving DecidableEq, Repr

/-- Source `interface UserData`. -/
structure UserData where
  name : String
  role : Role
deriving DecidableEq, Repr

/-- Source `interface AppState`: the whole zustand store state. -/
structure AppState where
  simulation : SimulationData
  fieldStatus : FieldStatus
  valuation : ValuationData
  timer : TimerData
  user : UserData
  isFirstTimeGuidanceOpen : Bool
  isVideoModalOpen : Bool
  isTextModalOpen : Bool
deriving DecidableEq, Repr

/-! ## Valuation calculator (`frontend/src/utils/calculations.ts`) -/

/-- Source `export const MAX_VALUATION = 1000000000`. -/
def MAX_VALUATION : ℚ := 1000000000

/-- Source `calculateValuation`: `amount = ebitda * multiple * factorScore`,
`percentage = Math.min((amount / MAX_VALUATION) * 100, 100)`,
`maxValuation = MAX_VALUATION`.  There is no lower clamp on
`percentage` in the source. -/
def calculateValuation (data : SimulationData) : ValuationData :=
  let amount := jsMul (jsMul data.ebitda data.multiple) data.factorScore
  let percentage := jsMin (jsMul (jsDiv amount (.num MAX_VALUATION)) (.num 100)) (.num 100)
  { amount := amount, percentage := percentage, maxValuation := MAX_VALUATION }

/-! ## Store (`frontend/src/store/simulationStore.ts`) -/

/-- The store's initial `simulation` object. -/
def initialSimulationData : SimulationData :=
  { ebitda := .num 10
    interestRate := .num 20
    multiple := .num 10
    factorScore := .num 3
    companyName := "ABC Corp."
    description := "This is the company's description. This company is #1!" }

/-- Source `initialFieldStatus`: every key of `initialSimulationData` maps to
`'OK'` except `'description'`, which maps to `'TBD'`. -/
def initialFieldStatus : FieldStatus :=
  FieldStatus.ofRule (fun key => if key = .description then .TBD else .OK)

/-- The store's initial timer object. -/
def initialTimerData : TimerData :=
  { hours := 0, minutes := 0, seconds := 0, totalSeconds := 0 }

/-- The state built by `create(...)` before any mutation. -/
def initialAppState : AppState :=
  { simulation := initialSimulationData
    fieldStatus := initialFieldStatus
    valuation := calculateValuation initialSimulationData
    timer := initialTimerData
    user := { name := "John Doe", role := .team1 }
    isFirstTimeGuidanceOpen := true
    isVideoModalOpen := false
    isTextModalOpen := false }

/-- A raw value passed to `updateSimulationField` (`value: string | number`). -/
inductive RawValue where
  | str (s : String)
  | num (j : JSNum)
deriving DecidableEq, Repr

/-- Model of `parseFloat(String(value))`: on a string, `jsParseFloat`; on a
number, `String` renders it and `parseFloat` reads it back, which is the
identity on every JavaScript number (idealised here as exact). -/
def parseRaw : RawValue → JSNum
  | .str s => jsParseFloat s
  | .num j => j

/-- The numeric fallback chain
`parseFloat(String(value)) || state.simulation[field] || 0`
(JavaScript `||` is left associative and keyed on truthiness). -/
def processedNumeric (value : RawValue) (prev : JSNum) : JSNum :=
  jsOr (jsOr (parseRaw value) prev) (.num 0)

/-- String stored into a text field.  The UI only ever passes strings to
text fields; a number would be stored verbatim by the source, rendered
here with JavaScript's spelling of the special values. -/
def rawText : RawValue → String
  | .str s => s
  | .num (.num q) => toString q
  | .num .nan => "NaN"
  | .num .inf => "Infinity"
  | .num .negInf => "-Infinity"

/-- The spread `\x7b ...state.simulation, [field]: processedValue \x7d` of
`updateSimulationField`.  The source chooses the numeric branch by
`typeof state.simulation[field] === 'number'`, which in the typed state
holds exactly for the four numeric fields. -/
def SimulationData.write (sim : SimulationData) : SimulationField → RawValue → SimulationData
  | .ebitda, v => { sim with ebitda := processedNumeric v sim.ebitda }
  | .interestRate, v => { sim with interestRate := processedNumeric v sim.interestRate }
  | .multiple, v => { sim with multiple := processedNumeric v sim.multiple }
  | .factorScore, v => { sim with factorScore := processedNumeric v sim.factorScore }
  | .companyName, v => { sim with companyName := rawText v }
  | .description, v => { sim with description := rawText v }

/-- Reads a numeric field; `none` on the two text fields. -/
def SimulationData.getNum : SimulationData → SimulationField → Option JSNum
  | sim, .ebitda => some sim.ebitda
  | sim, .interestRate => some sim.interestRate
  | sim, .multiple => some sim.multiple
  | sim, .factorScore => some sim.factorScore
  | _, .companyName => none
  | _, .description => none

/-- Store `updateSimulationField(field, value)`: writes the processed value
and recomputes `valuation` from the new simulation in the same `set`. -/
def updateSimulationField (state : AppState) (field : SimulationField) (value : RawValue) :
    AppState :=
  let newSimulation := state.simulation.write field value
  { state with simulation := newSimulation, valuation := calculateValuation newSimulation }

/-- Store `updateFieldStatus(field, status)`: replaces one entry of `fieldStatus`. -/
def updateFieldStatus (state : AppState) (field : SimulationField)
    (status : FieldToggleStatus) : AppState :=
  { state with fieldStatus := state.fieldStatus.set field status }

/-- Store `incrementTimer()`: adds one second and recomputes the breakdown
(`Math.floor` on non-negative integers is `Nat` division). -/
def incrementTimer (state : AppState) : AppState :=
  let newTotalSeconds := state.timer.totalSeconds + 1
  { state with
      timer :=
        { hours := newTotalSeconds / 3600
          minutes := newTotalSeconds % 3600 / 60
          seconds := newTotalSeconds % 60
          totalSeconds := newTotalSeconds } }

/-- Store `resetTimer()`. -/
def resetTimer (state : AppState) : AppState :=
  { state with timer := initialTimerData }

/-- Store `toggleFirstTimeGuidance()`. -/
def toggleFirstTimeGuidance (state : AppState) : AppState :=
  { state with isFirstTimeGuidanceOpen := !state.isFirstTimeGuidanceOpen }

/-- Store `openVideoModal()`. -/
def openVideoModal (state : AppState) : AppState :=
  { state with isVideoModalOpen := true }

/-- Store `closeVideoModal()`. -/
def closeVideoModal (state : AppState) : AppState :=
  { state with isVideoModalOpen := false }

/-- Store `openTextModal()`. -/
def openTextModal (state : AppState) : AppState :=
  { state with isTextModalOpen := true }

/-- Store `closeTextModal()`. -/
def closeTextModal (state : AppState) : AppState :=
  { state with isTextModalOpen := false }

/-- Store `setUserRole(role)`. -/
def setUserRole (state : AppState) (role : Role) : AppState :=
  { state with user := { state.user with role := role } }

/-- Store `setUserName(name)`. -/
def setUserName (state : AppState) (name : String) : AppState :=
  { state with user := { state.user with name := name } }

/-- Store `resetSimulation()`: one `set` replacing `simulation`, `fieldStatus`,
`valuation` and `timer`; zustand merges, so every other key is kept. -/
def resetSimulation (state : AppState) : AppState :=
  { state with
      simulation := initialSimulationData
      fieldStatus := initialFieldStatus
      valuation := calculateValuation initialSimulationData
      timer := initialTimerData }

/-- Every public mutation of the store, as one alphabet of operations. -/
inductive Op where
  | updateSimulationField (field : SimulationField) (value : RawValue)
  | updateFieldStatus (field : SimulationField) (status : FieldToggleStatus)
  | incrementTimer
  | resetTimer
  | toggleFirstTimeGuidance
  | openVideoModal
  | closeVideoModal
  | openTextModal
  | closeTextModal
  | setUserRole (role : Role)
  | setUserName (name : String)
  | resetSimulation
deriving DecidableEq

/-- Dispatch of an operation to the store function it names. -/
def applyOp : Op → AppState → AppState
  | .updateSimulationField f v, s => Finsimco.updateSimulationField s f v
  | .updateFieldStatus f st, s => Finsimco.updateFieldStatus s f st
  | .incrementTimer, s => Finsimco.incrementTimer s
  | .resetTimer, s => Finsimco.resetTimer s
  | .toggleFirstTimeGuidance, s => Finsimco.toggleFirstTimeGuidance s
  | .openVideoModal, s => Finsimco.openVideoModal s
  | .closeVideoModal, s => Finsimco.closeVideoModal s
  | .openTextModal, s => Finsimco.openTextModal s
  | .closeTextModal, s => Finsimco.closeTextModal s
  | .setUserRole r, s => Finsimco.setUserRole s r
  | .setUserName n, s => Finsimco.setUserName s n
  | .resetSimulation, s => Finsimco.resetSimulation s

/-! ## Role-gated handlers (`frontend/src/components/inputs/InputField.tsx`) -/

/-- Component handler `handleValueChange`: `if (!isTeam1) return;` then
`updateSimulationField(field, newValue)`. -/
def handleValueChange (state : AppState) (field : SimulationField) (newValue : RawValue) :
    AppState :=
  if state.user.role ≠ .team1 then state
  else updateSimulationField state field newValue

/-- Component handler `handleStatusToggle`: `if (!isTeam2) return;` then
`updateFieldStatus(field, newStatus)`. -/
def handleStatusToggle (state : AppState) (field : SimulationField)
    (newStatus : FieldToggleStatus) : AppState :=
  if state.user.role ≠ .team2 then state
  else updateFieldStatus state field newStatus

/-! ## Persistence (`persist` options of the store) -/

/-- The durable record: exactly the two keys named by `partialize`. -/
structure PersistedSubset where
  isFirstTimeGuidanceOpen : Bool
  user : UserData
deriving DecidableEq, Repr

/-- Source `partialize`: the subset of the state handed to the persist
middleware. -/
def partialize (state : AppState) : PersistedSubset :=
  { isFirstTimeGuidanceOpen := state.isFirstTimeGuidanceOpen, user := state.user }

/-- Modelled from the spec: the persistence gateway (the zustand
`persist` middleware, a library external to this repository) serializes
the partialized subset under the single storage key
`"simulation-storage"`; `save` replaces the stored record with the
subset it is given. -/
def save (_storage : Option PersistedSubset) (subset : PersistedSubset) :
    Option PersistedSubset :=
  some subset

/-- Modelled from the spec: `load` returns the record currently stored
under the key, if any. -/
def load (storage : Option PersistedSubset) : Option PersistedSubset :=
  storage

/-! ## Formatters (`frontend/src/utils/calculations.ts`) -/

/-- JavaScript `x.toFixed(0)` on a finite value: the integer nearest to
`x`, half-way cases toward positive infinity, printed in decimal. -/
def jsToFixed0 (q : ℚ) : String :=
  toString (⌊q + 1 / 2⌋ : ℤ)

/-- JavaScript `x.toFixed(1)` for a non-negative finite value: one digit
after the decimal point, same rounding rule scaled by ten. -/
def jsToFixed1 (q : ℚ) : String :=
  toString (⌊q * 10 + 1 / 2⌋ / 10 : ℤ) ++ "." ++ toString (⌊q * 10 + 1 / 2⌋ % 10 : ℤ)

/-- Source `formatCurrency`: tiered display of an amount, with one
decimal only in the billion tier. -/
def formatCurrency (amount : ℚ) : String :=
  if amount ≥ 1000000000 then "$" ++ jsToFixed1 (amount / 1000000000) ++ "B"
  else if amount ≥ 1000000 then "$" ++ jsToFixed0 (amount / 1000000) ++ " million"
  else if amount ≥ 1000 then "$" ++ jsToFixed0 (amount / 1000) ++ "K"
  else "$" ++ jsToFixed0 amount

/-- JavaScript `s.padStart(2, '0')`. -/
def padStart2 (s : String) : String :=
  if s.length < 2 then String.mk (List.replicate (2 - s.length) '0') ++ s else s

/-- The `pad` helper of `formatTime`: `num.toString().padStart(2, '0')`. -/
def pad (num : Nat) : String :=
  padStart2 (toString num)

/-- Source `formatTime`: zero-padded `HH:MM:SS` from a second count
(non-negative in every reachable state, so the argument is `Nat` and
`Math.floor` is `Nat` division). -/
def formatTime (totalSeconds : Nat) : String :=
  let hours := totalSeconds / 3600
  let minutes := totalSeconds % 3600 / 60
  let seconds := totalSeconds % 60
  pad hours ++ ":" ++ pad minutes ++ ":" ++ pad seconds

/-- Derived-value consistency: the stored valuation is the calculator
applied to the stored simulation inputs. -/
def Consistent (state : AppState) : Prop :=
  state.valuation = calculateValuation state.simulation

/-! ## Shared evaluation lemmas -/

/-- Evaluates the calculator on four finite inputs. -/
lemma calculateValuation_on_num (e i m f : ℚ) (cn ds : String) :
    calculateValuation ⟨.num e, .num i, .num m, .num f, cn, ds⟩ =
      { amount := .num (e * m * f)
        percentage := .num (min (e * m * f / MAX_VALUATION * 100) 100)
        maxValuation := MAX_VALUATION } := by
  simp only [calculateValuation, jsMul, jsDiv, jsMin]
  norm_num [MAX_VALUATION]

/-- A truthy number is not `NaN`. -/
lemma truthy_ne_nan (a : JSNum) (h : a.truthy = true) : a ≠ .nan := by
  cases a <;> simp_all [JSNum.truthy]

/-- The fallback chain keeps the previous value whenever the parse comes
back `NaN`, provided the previous value itself is not `NaN`. -/
lemma processedNumeric_of_nan (v : RawValue) (prev : JSNum) (hprev : prev ≠ .nan)
    (hv : parseRaw v = .nan) : processedNumeric v prev = prev := by
  unfold processedNumeric
  rw [hv]
  show jsOr (jsOr JSNum.nan prev) (.num 0) = prev
  rw [show jsOr JSNum.nan prev = prev from rfl]
  unfold jsOr
  cases prev with
  | num q =>
      by_cases hq : q = 0
      · subst hq; simp [JSNum.truthy]
      · simp [JSNum.truthy, hq]
  | nan => exact absurd rfl hprev
  | inf => rfl
  | negInf => rfl

/-- The fallback chain also keeps the previous value whenever the parse
comes back exactly `0` (zero is falsy, so the chain falls through). -/
lemma processedNumeric_of_zero (v : RawValue) (prev : JSNum) (hprev : prev ≠ .nan)
    (hv : parseRaw v = .num 0) : processedNumeric v prev = prev := by
  unfold processedNumeric
  rw [hv]
  show jsOr (jsOr (.num 0) prev) (.num 0) = prev
  rw [show jsOr (JSNum.num 0) prev = prev by simp [jsOr, JSNum.truthy]]
  unfold jsOr
  cases prev with
  | num q =>
      by_cases hq : q = 0
      · subst hq; simp [JSNum.truthy]
      · simp [JSNum.truthy, hq]
  | nan => exact absurd rfl hprev
  | inf => rfl
  | negInf => rfl

/-- Writing through `updateSimulationField` sends a numeric field through
the fallback chain. -/
lemma updateSimulationField_getNum (st : AppState) (f : SimulationField) (v : RawValue)
    (prev : JSNum) (h : st.simulation.getNum f = some prev) :
    (updateSimulationField st f v).simulation.getNum f = some (processedNumeric v prev) := by
  cases f <;>
    simp_all [updateSimulationField, SimulationData.write, SimulationData.getNum]

/-- Counting seconds: iterating the tick adds the iteration count. -/
lemma incrementTimer_iterate_totalSeconds (n : Nat) (st : AppState) :
    (incrementTimer^[n] st).timer.totalSeconds = st.timer.totalSeconds + n := by
  induction n generalizing st with
  | zero => simp
  | succ k ih =>
      rw [Function.iterate_succ_apply, ih]
      simp [incrementTimer]
      omega

/-- After at least one tick the whole breakdown is derived from the new
second count. -/
lemma incrementTimer_iterate_timer (n : Nat) (st : AppState) :
    (incrementTimer^[n + 1] st).timer =
      { hours := (st.timer.totalSeconds + n + 1) / 3600
        minutes := (st.timer.totalSeconds + n + 1) % 3600 / 60
        seconds := (st.timer.totalSeconds + n + 1) % 60
        totalSeconds := st.timer.totalSeconds + n + 1 } := by
  rw [Function.iterate_succ_apply']
  simp [incrementTimer, incrementTimer_iterate_totalSeconds]

/-- Evaluation of the parser on the literal `"0"`. -/
lemma jsParseFloat_zero : jsParseFloat "0" = .num 0 := by
  simp +decide [jsParseFloat, isJsWhitespace, parseUnsigned, takeDigits, isDigitChar,
    digitsToNat, parseExponent, expDigits, applyExp, List.dropWhile]

/-! ## Claim theorems -/

/-- C1 (amended): for all finite inputs, `calculateValuation` returns
`amount = ebitda * multiple * factorScore` at full precision and
`percentage = min(amount / ceiling * 100, 100)`; the percentage never
exceeds 100 and is non-negative whenever the amount is, but the source
applies no lower clamp (see the counterexample). -/
theorem calculateValuation_amount_percentage (e i m f : ℚ) (cn ds : String) :
    (calculateValuation ⟨.num e, .num i, .num m, .num f, cn, ds⟩).amount =
        .num (e * m * f) ∧
      (calculateValuation ⟨.num e, .num i, .num m, .num f, cn, ds⟩).percentage =
        .num (min (e * m * f / MAX_VALUATION * 100) 100) ∧
      min (e * m * f / MAX_VALUATION * 100) 100 ≤ 100 ∧
      (0 ≤ e * m * f → 0 ≤ min (e * m * f / MAX_VALUATION * 100) 100) := by
  refine ⟨?_, ?_, min_le_right _ _, fun h => le_min ?_ (by norm_num)⟩
  · rw [calculateValuation_on_num]
  · rw [calculateValuation_on_num]
  · exact mul_nonneg (div_nonneg h (by norm_num [MAX_VALUATION])) (by norm_num)

/-- Witness for C1 at the store's initial inputs. -/
theorem calculateValuation_amount_percentage_witness :
    (calculateValuation ⟨.num 10, .num 20, .num 10, .num 3, "ABC Corp.", "d"⟩).amount =
        .num ((10 : ℚ) * 10 * 3) ∧
      0 ≤ min ((10 : ℚ) * 10 * 3 / MAX_VALUATION * 100) 100 :=
  ⟨(calculateValuation_amount_percentage 10 20 10 3 "ABC Corp." "d").1,
   (calculateValuation_amount_percentage 10 20 10 3 "ABC Corp." "d").2.2.2 (by norm_num)⟩

/-- C1 counterexample: with `ebitda = -10` (and the other defaults) the
amount is `-300` and the percentage is `-3/100000 < 0`: the code never
clamps the percentage below, contradicting the claimed floor at 0. -/
theorem calculateValuation_percentage_negative :
    (calculateValuation ⟨.num (-10), .num 20, .num 10, .num 3, "ABC Corp.", "d"⟩).percentage =
        .num (-(3 : ℚ) / 100000) ∧ (-(3 : ℚ) / 100000 : ℚ) < 0 := by
  constructor
  · rw [calculateValuation_on_num]
    simp only [JSNum.num.injEq]
    rw [min_eq_left (by norm_num [MAX_VALUATION])]
    norm_num [MAX_VALUATION]
  · norm_num

/-- C2: the derived-value invariant `valuation = calculateValuation
simulation` holds in the initial state and is preserved by every public
operation of the store, so no caller observes them out of sync. -/
theorem valuation_always_consistent :
    Consistent initialAppState ∧
      ∀ (op : Op) (st : AppState), Consistent st → Consistent (applyOp op st) := by
  refine ⟨rfl, fun op st h => ?_⟩
  cases op <;>
    simp_all [Consistent, applyOp, updateSimulationField, updateFieldStatus, incrementTimer,
      resetTimer, toggleFirstTimeGuidance, openVideoModal, closeVideoModal, openTextModal,
      closeTextModal, setUserRole, setUserName, resetSimulation]

/-- Witness for C2: consistency after a tick on the initial state. -/
theorem valuation_always_consistent_witness :
    Consistent (applyOp .incrementTimer initialAppState) :=
  valuation_always_consistent.2 .incrementTimer initialAppState valuation_always_consistent.1

/-- C4: with role `team2` the value-change handler is a silent no-op on
the whole state, and with role `team1` the status-toggle handler is a
silent no-op on the whole state. -/
theorem role_gating_no_op :
    (∀ (st : AppState) (f : SimulationField) (v : RawValue),
      st.user.role = .team2 → handleValueChange st f v = st) ∧
      ∀ (st : AppState) (f : SimulationField) (s : FieldToggleStatus),
        st.user.role = .team1 → handleStatusToggle st f s = st := by
  constructor
  · intro st f v h
    simp [handleValueChange, h]
  · intro st f s h
    simp [handleStatusToggle, h]

/-- Witness for C4 on concrete states of both roles. -/
theorem role_gating_no_op_witness :
    handleValueChange (setUserRole initialAppState .team2) .ebitda (.str "42") =
        setUserRole initialAppState .team2 ∧
      handleStatusToggle initialAppState .description .OK = initialAppState :=
  ⟨role_gating_no_op.1 _ _ _ rfl, role_gating_no_op.2 _ _ _ rfl⟩

/-- C5: from any state, `resetSimulation` restores the simulation
inputs, the field statuses and the timer to their defaults and
recomputes the valuation, while the user and the three visibility flags
are untouched. -/
theorem resetSimulation_spec (st : AppState) :
    (resetSimulation st).simulation = initialSimulationData ∧
      (resetSimulation st).fieldStatus = initialFieldStatus ∧
      (resetSimulation st).timer = initialTimerData ∧
      (resetSimulation st).valuation = calculateValuation initialSimulationData ∧
      (resetSimulation st).user = st.user ∧
      (resetSimulation st).isFirstTimeGuidanceOpen = st.isFirstTimeGuidanceOpen ∧
      (resetSimulation st).isVideoModalOpen = st.isVideoModalOpen ∧
      (resetSimulation st).isTextModalOpen = st.isTextModalOpen :=
  ⟨rfl, rfl, rfl, rfl, rfl, rfl, rfl, rfl⟩

/-- C6: the persisted subset is exactly the guidance flag and the user
(`partialize` reads nothing else), and a `save` immediately followed by
a `load` yields the very subset saved. -/
theorem persisted_subset_roundtrip :
    (∀ st : AppState,
      (partialize st).isFirstTimeGuidanceOpen = st.isFirstTimeGuidanceOpen ∧
        (partialize st).user = st.user) ∧
      (∀ st st' : AppState,
        st.isFirstTimeGuidanceOpen = st'.isFirstTimeGuidanceOpen → st.user = st'.user →
          partialize st = partialize st') ∧
      ∀ (storage : Option PersistedSubset) (subset : PersistedSubset),
        load (save storage subset) = some subset := by
  refine ⟨fun st => ⟨rfl, rfl⟩, fun st st' h1 h2 => ?_, fun storage subset => rfl⟩
  simp [partialize, h1, h2]

/-- Witness for C6: two states that differ only outside the subset have
equal persisted records, and a concrete round trip. -/
theorem persisted_subset_roundtrip_witness :
    partialize (incrementTimer initialAppState) = partialize initialAppState ∧
      load (save none (partialize initialAppState)) = some (partialize initialAppState) :=
  ⟨persisted_subset_roundtrip.2.1 _ _ rfl rfl,
   persisted_subset_roundtrip.2.2 none (partialize initialAppState)⟩

/-- C7: each tick adds exactly one second; the recomputed breakdown
always satisfies `hours * 3600 + minutes * 60 + seconds = totalSeconds`
(all components are `Nat`, hence non-negative); 3600 ticks from the
initial state give one hour exactly; and the clock formatter renders
3600 seconds as `"01:00:00"`. -/
theorem incrementTimer_spec :
    (∀ st : AppState, (incrementTimer st).timer.totalSeconds = st.timer.totalSeconds + 1) ∧
      (∀ st : AppState,
        (incrementTimer st).timer.hours * 3600 + (incrementTimer st).timer.minutes * 60 +
            (incrementTimer st).timer.seconds = (incrementTimer st).timer.totalSeconds) ∧
      (incrementTimer^[3600] initialAppState).timer =
        { hours := 1, minutes := 0, seconds := 0, totalSeconds := 3600 } ∧
      formatTime 3600 = "01:00:00" := by
  refine ⟨fun st => rfl, fun st => ?_, ?_, by decide⟩
  · simp only [incrementTimer]
    omega
  · rw [show (3600 : Nat) = 3599 + 1 from rfl, incrementTimer_iterate_timer]
    decide

/-- C8: the field-status mapping is total with exactly one status per
field: its default is `OK` everywhere except `description` (`TBD`),
`updateFieldStatus` rewrites exactly the named key, and after any
operation every field still carries one of the two statuses. -/
theorem fieldStatus_total_and_default :
    (∀ f : SimulationField,
      initialFieldStatus.get f = if f = .description then .TBD else .OK) ∧
      (∀ (st : AppState) (f : SimulationField) (s : FieldToggleStatus) (g : SimulationField),
        (updateFieldStatus st f s).fieldStatus.get g =
          if g = f then s else st.fieldStatus.get g) ∧
      ∀ (op : Op) (st : AppState) (f : SimulationField),
        (applyOp op st).fieldStatus.get f = .TBD ∨ (applyOp op st).fieldStatus.get f = .OK := by
  refine ⟨fun f => by cases f <;> rfl, fun st f s g => ?_, fun op st f => ?_⟩
  · cases f <;> cases g <;> simp [updateFieldStatus, FieldStatus.set, FieldStatus.get]
  · cases h : (applyOp op st).fieldStatus.get f
    · exact Or.inl rfl
    · exact Or.inr rfl

/-- C9: the currency formatter uses one decimal in the billion tier, the
word `million` in the million tier, `K` in the thousand tier, and the
plain rounded integer below that — no decimals below the billion tier —
and `formatCurrency 300 = "$300"`. -/
theorem formatCurrency_tiers :
    (∀ a : ℚ, 1000000000 ≤ a → formatCurrency a = "$" ++ jsToFixed1 (a / 1000000000) ++ "B") ∧
      (∀ a : ℚ, 1000000 ≤ a → a < 1000000000 →
        formatCurrency a = "$" ++ jsToFixed0 (a / 1000000) ++ " million") ∧
      (∀ a : ℚ, 1000 ≤ a → a < 1000000 →
        formatCurrency a = "$" ++ jsToFixed0 (a / 1000) ++ "K") ∧
      (∀ a : ℚ, 0 ≤ a → a < 1000 → formatCurrency a = "$" ++ jsToFixed0 a) ∧
      formatCurrency 300 = "$300" := by
  refine ⟨fun a h => ?_, fun a h1 h2 => ?_, fun a h1 h2 => ?_, fun a h1 h2 => ?_, ?_⟩
  · rw [formatCurrency, if_pos h]
  · rw [formatCurrency, if_neg (by exact not_le.mpr h2), if_pos h1]
  · rw [formatCurrency, if_neg (by exact not_le.mpr (h2.trans (by norm_num))),
      if_neg (by exact not_le.mpr h2), if_pos h1]
  · rw [formatCurrency, if_neg (by exact not_le.mpr (h2.trans (by norm_num))),
      if_neg (by exact not_le.mpr (h2.trans (by norm_num))),
      if_neg (by exact not_le.mpr h2)]
  · rw [formatCurrency]
    norm_num [jsToFixed0]
    rfl

/-- Witness for C9 in the lowest tier. -/
theorem formatCurrency_tiers_witness :
    formatCurrency 2 = "$" ++ jsToFixed0 2 :=
  formatCurrency_tiers.2.2.2.1 2 (by decide) (by decide)

/-- C3 (amended): when the parse comes back `NaN` (a parse failure) the
numeric field keeps its previous value (which is never `NaN` in a
reachable state); in particular `"abc"` over `ebitda = 10` leaves 10.  A
parse that yields an infinity, however, is truthy and is stored (see the
counterexample), so only `NaN`, not every non-finite value, triggers the
fallback. -/
theorem updateSimulationField_nan_keeps_previous :
    (∀ (st : AppState) (f : SimulationField) (v : RawValue) (prev : JSNum),
      st.simulation.getNum f = some prev → prev ≠ .nan → parseRaw v = .nan →
        (updateSimulationField st f v).simulation.getNum f = some prev) ∧
      (updateSimulationField initialAppState .ebitda (.str "abc")).simulation.ebitda =
        .num 10 := by
  refine ⟨fun st f v prev h hprev hv => ?_, by decide⟩
  rw [updateSimulationField_getNum st f v prev h, processedNumeric_of_nan v prev hprev hv]

/-- Witness for C3 on the initial state. -/
theorem updateSimulationField_nan_keeps_previous_witness :
    (updateSimulationField initialAppState .ebitda (.str "xyz")).simulation.getNum .ebitda =
      some (.num 10) :=
  updateSimulationField_nan_keeps_previous.1 initialAppState .ebitda (.str "xyz") (.num 10)
    (by decide) (by decide) (by decide)

/-- C3 counterexample: `parseFloat` reads `"Infinity"` as the non-finite
`Infinity`, which is truthy, so `updateSimulationField` stores it instead
of keeping the previous value 10 — the claim fails for non-finite parse
results other than `NaN`. -/
theorem updateSimulationField_infinity_stored :
    jsParseFloat "Infinity" = .inf ∧
      initialAppState.simulation.ebitda = .num 10 ∧
      (updateSimulationField initialAppState .ebitda (.str "Infinity")).simulation.ebitda =
        .inf ∧
      JSNum.inf ≠ .num 10 :=
  ⟨by decide, rfl, by decide, by decide⟩

/-- C10: a raw value that parses to exactly 0 (for instance the string
`"0"` or the number 0) is falsy in the fallback chain, so the field
keeps its previous value and ends up 0 only if it already was 0; over
the initial `ebitda = 10`, writing `"0"` leaves 10. -/
theorem updateSimulationField_zero_keeps_previous :
    (∀ (st : AppState) (f : SimulationField) (v : RawValue) (prev : JSNum),
      st.simulation.getNum f = some prev → prev ≠ .nan → parseRaw v = .num 0 →
        (updateSimulationField st f v).simulation.getNum f = some prev) ∧
      jsParseFloat "0" = .num 0 ∧
      (updateSimulationField initialAppState .ebitda (.str "0")).simulation.ebitda =
        .num 10 := by
  refine ⟨fun st f v prev h hprev hv => ?_, jsParseFloat_zero, ?_⟩
  · rw [updateSimulationField_getNum st f v prev h, processedNumeric_of_zero v prev hprev hv]
  · have h := updateSimulationField_getNum initialAppState .ebitda (.str "0") (.num 10) rfl
    rw [processedNumeric_of_zero (.str "0") (.num 10) (by decide) jsParseFloat_zero] at h
    exact Option.some.inj h

/-- Witness for C10 with the number 0 as the raw value. -/
theorem updateSimulationField_zero_keeps_previous_witness :
    (updateSimulationField initialAppState .multiple (.num (.num 0))).simulation.getNum
        .multiple = some (.num 10) :=
  updateSimulationField_zero_keeps_previous.1 initialAppState .multiple (.num (.num 0))
    (.num 10) rfl (by decide) rfl

end Finsimco
